import Mathlib

/-!
# ServerForge installation engine: a shallow embedding

This file embeds, in Lean, the parts of the ServerForge code base that the
verified claims are about: the secure path validator and directory allocator
(`svforge/utils/system.py`), the HTTP/caching layer (`svforge/utils/base_api.py`),
the version resolvers (`svforge/utils/api.py`) and the server construction and
installation pipeline (`svforge/servers/*.py`).

Conventions of the embedding:
* Python exceptions become the `PyError` type; a fallible Python function
  becomes a Lean function into `Except PyError _`.
* A Python instance becomes a record holding exactly the attributes its
  constructors assign.  An attribute that the source reads but that no
  constructor ever assigns is embedded as an `Option`-typed field that the
  initializer sets to `none`; reading it yields `PyError.attributeError`,
  matching the `AttributeError` CPython raises on the access.
* Remote HTTP responses are oracle parameters of type `Except PyError _`:
  `.error _` stands for a network or JSON-parse failure of the request,
  `.ok v` for a successful response with decoded payload `v`.
* A filesystem path is its list of components (absolute, root-relative);
  `pathChars` is the character sequence of its `str()` rendering.
-/

/-- The Python exceptions the embedded code can raise
(`svforge/exceptions.py`, plus the built-in `AttributeError` and the
`packaging` parse failure). -/
inductive PyError where
  | attributeError
  | validationError
  | pathValidationError
  | unsupportedVersionError
  | apiError
  | downloadError
  | invalidVersion
  | serverInstallationError (msg : String)
  deriving DecidableEq, Repr

deriving instance DecidableEq for Except

/-! ## `SecurePathValidator` (`svforge/utils/system.py`) -/

/-- `SecurePathValidator.RESERVED_NAMES` (system.py:30). -/
def RESERVED_NAMES : List String :=
  ["CON", "PRN", "AUX", "NUL", "COM1", "COM2", "COM3", "COM4", "COM5",
   "COM6", "COM7", "COM8", "COM9", "LPT1", "LPT2", "LPT3", "LPT4",
   "LPT5", "LPT6", "LPT7", "LPT8", "LPT9"]

/-- A character of the class `[a-zA-Z0-9._-]` used by the name regex
(system.py:43). -/
def isNameChar (c : Char) : Bool :=
  c.isAlpha || c.isDigit || c = '.' || c = '_' || c = '-'

/-- A character kept by `re.sub(r'[^\w._-]', '', component)` (system.py:67):
`\w` is `[a-zA-Z0-9_]` on this ASCII input, plus the explicit `._-`. -/
def isKeptChar (c : Char) : Bool :=
  c.isAlpha || c.isDigit || c = '_' || c = '.' || c = '-'

/-- ASCII upper-casing of one character, as `str.upper()` acts on the
name alphabet. -/
def charUpper (c : Char) : Char :=
  if 'a' ≤ c && c ≤ 'z' then Char.ofNat (c.toNat - 32) else c

/-- `name.upper()` (system.py:51). -/
def strUpper (s : String) : String :=
  String.mk (s.data.map charUpper)

/-- `name.startswith('.')` (system.py:47). -/
def startsWithDot (s : String) : Bool :=
  match s.data with
  | '.' :: _ => true
  | _ => false

/-- `SecurePathValidator.validate_server_name` (system.py:36-58): the regex
`^[a-zA-Z0-9._-]+$`, then the leading-dot / `.` / `..` rejection, then the
case-insensitive reserved names, then the 100-character cap. -/
def validate_server_name (name : String) : Bool :=
  if name.data.isEmpty || !(name.data.all isNameChar) then false
  else if startsWithDot name || name = "." || name = ".." then false
  else if RESERVED_NAMES.contains (strUpper name) then false
  else if name.length > 100 then false
  else true

/-- `SecurePathValidator.sanitize_path_component` (system.py:60-73):
validate, strip every character outside `[\w._-]`, and fail if the strip
left nothing. -/
def sanitize_path_component (component : String) : Except PyError String :=
  if !validate_server_name component then
    .error .pathValidationError
  else
    let sanitized := String.mk (component.data.filter isKeptChar)
    if sanitized.data.isEmpty then .error .pathValidationError
    else .ok sanitized

/-- An absolute filesystem path, as its component list. -/
abbrev FsPath := List String

/-- The character sequence of `str()` of an absolute path:
`pathChars ["srv", "mc"]` is the characters of `/srv/mc`. -/
def pathChars : FsPath → List Char
  | [] => []
  | c :: rest => '/' :: c.data ++ pathChars rest

/-- One step of `Path.resolve()`'s collapsing of relative segments:
`.` and empty segments vanish, `..` pops the last component. -/
def resolveStep (acc : FsPath) (c : String) : FsPath :=
  if c = "" || c = "." then acc
  else if c = ".." then acc.dropLast
  else acc ++ [c]

/-- `Path.resolve()` on the candidate (system.py:80-81), restricted to the
collapsing of `.`/`..`/empty segments (symlinks are not modelled: the claims
settled here need only relative-segment resolution). -/
def resolveComponents (p : FsPath) : FsPath :=
  p.foldl resolveStep []

/-- `SecurePathValidator.validate_and_resolve_path` (system.py:75-92):
resolve both paths and require
`str(resolved_path).startswith(str(resolved_parent))`. -/
def validate_and_resolve_path (path allowed_parent : FsPath) : Except PyError FsPath :=
  let resolved_path := resolveComponents path
  let resolved_parent := resolveComponents allowed_parent
  if (pathChars resolved_parent).isPrefixOf (pathChars resolved_path) then
    .ok resolved_path
  else
    .error .pathValidationError

/-- A path is within a root when the root's components are a prefix of its
components: the spec's notion of the candidate not "resolving outside the
sandbox root". -/
def isWithinRoot (p root : FsPath) : Prop := root <+: p

instance (p root : FsPath) : Decidable (isWithinRoot p root) := by
  unfold isWithinRoot
  infer_instance

/-! ## `PathManager` (`svforge/utils/system.py`) -/

/-- The state of one directory in the modelled filesystem. -/
inductive DirState where
  | absent
  | emptyDir
  | nonEmpty
  deriving DecidableEq, Repr

/-- A filesystem snapshot: the state of each directory. -/
abbrev Fs := FsPath → DirState

/-- The directory created by `create_safe_directory` (system.py:95-113):
its path, and the `mode` it was created with (default `0o755`). -/
structure CreatedDir where
  path : FsPath
  mode : Nat
  deriving DecidableEq, Repr

/-- The `{type}-{version}` / `{type}-{version}-{instance}` directory name
(system.py:411-414). -/
def server_dir_name (safe_server_type safe_version : String) (inst : Nat) : String :=
  if inst = 0 then safe_server_type ++ "-" ++ safe_version
  else safe_server_type ++ "-" ++ safe_version ++ "-" ++ toString inst

/-- `PathManager.get_server_directory` (system.py:392-421): validate both
name components and the instance bound, sanitize the components, build the
directory name, check it against the servers root with
`validate_and_resolve_path`, and create it (`mkdir -p`, mode `0o755`).
`base` is the resolved servers root (`~/minecraft_servers`). The Python
`instance` is an `int` checked for `instance < 0 or instance > 999`; the
embedding uses `Nat`, so only the upper bound remains. -/
def get_server_directory (base : FsPath) (server_type version : String)
    (inst : Nat) : Except PyError CreatedDir := do
  if !validate_server_name server_type then
    throw .pathValidationError
  else if !validate_server_name version then
    throw .pathValidationError
  else if 999 < inst then
    throw .pathValidationError
  else
    let safe_server_type ← sanitize_path_component server_type
    let safe_version ← sanitize_path_component version
    let server_dir := base ++ [server_dir_name safe_server_type safe_version inst]
    let validated_path ← validate_and_resolve_path server_dir base
    pure { path := validated_path, mode := 0o755 }

/-- The loop body of `PathManager.find_available_server_directory`
(system.py:423-439), with `remaining = 1000 - instance` as fuel: call
`get_server_directory`; an empty (freshly created or pre-existing empty)
directory is returned, a non-empty one advances to the next instance, and a
`PathValidationError` also advances to the next instance. -/
def findAvailableAux (fs : Fs) (base : FsPath) (server_type version : String) :
    Nat → Nat → Except PyError CreatedDir
  | _, 0 => .error .pathValidationError
  | inst, remaining + 1 =>
    match get_server_directory base server_type version inst with
    | .ok d =>
      if fs d.path = .nonEmpty then
        findAvailableAux fs base server_type version (inst + 1) remaining
      else
        .ok d
    | .error _ => findAvailableAux fs base server_type version (inst + 1) remaining

/-- `PathManager.find_available_server_directory` (system.py:423-439):
try instances `0, 1, ...` with `max_instances = 1000`; raise a
`PathValidationError` when all 1000 are exhausted. -/
def find_available_server_directory (fs : Fs) (base : FsPath)
    (server_type version : String) : Except PyError CreatedDir :=
  findAvailableAux fs base server_type version 0 1000

/-! ## `CachedAPIClient` and `BaseDownloadClient` (`svforge/utils/base_api.py`) -/

/-- `CachedAPIClient.get_cached_or_fetch` (base_api.py:244-270) for one call:
the cache is the association list `self._cache`; `fetch` is `fetch_func` with
its arguments already applied, returning a value or raising.  On a cache miss
with a raising fetch the handler logs and returns `None` without touching the
cache; otherwise the fetched value (whatever it is, `None` included once the
value type is an `Option`) is stored and returned. -/
def get_cached_or_fetch {α : Type} (cache : List (String × α)) (cache_key : String)
    (fetch : Unit → Except PyError α) : Option α × List (String × α) :=
  match cache.lookup cache_key with
  | some v => (some v, cache)
  | none =>
    match fetch () with
    | .ok v => (some v, (cache_key, v) :: cache)
    | .error _ => (none, cache)

/-- One progress event: the `(downloaded, total)` pair passed to the callback. -/
abbrev ProgressEvent := Nat × Nat

/-- The streamed-chunk loop of `BaseDownloadClient.download_file`
(base_api.py:217-223): write each chunk, add its length to `downloaded`, and
fire the callback after the chunk when a callback was supplied and
`total_size > 0`.  A chunk is its byte list; the result is the bytes written
to the destination file and the list of progress events, in order. -/
def downloadLoop (total_size : Nat) (has_callback : Bool) :
    List (List Nat) → Nat → List Nat × List ProgressEvent
  | [], _ => ([], [])
  | chunk :: rest, downloaded =>
    let downloaded' := downloaded + chunk.length
    let (bytes, events) := downloadLoop total_size has_callback rest downloaded'
    (chunk ++ bytes,
      (if has_callback && decide (0 < total_size) then [(downloaded', total_size)] else [])
        ++ events)

/-- The outcome of a successful `download_file` run. -/
structure DownloadRun where
  fileBytes : List Nat
  events : List ProgressEvent
  result : Bool
  deriving DecidableEq, Repr

/-- `BaseDownloadClient.download_file` (base_api.py:188-233) on a stream that
succeeds: `content_length` is the decoded `content-length` header (`none`
when absent, in which case `total_size` defaults to `0`), `chunks` the chunk
sequence the response yields, `has_callback` whether a `progress_callback`
was passed.  Returns the written file, the progress events and `True`. -/
def download_file (content_length : Option Nat) (chunks : List (List Nat))
    (has_callback : Bool) : DownloadRun :=
  let total_size := content_length.getD 0
  let (bytes, events) := downloadLoop total_size has_callback chunks 0
  { fileBytes := bytes, events := events, result := true }

/-! ## Paper and Leaf project APIs (`svforge/utils/api.py`) -/

/-- `s.startswith(pre)` on ordinary strings. -/
def strStartsWith (pre s : String) : Bool :=
  pre.data.isPrefixOf s.data

/-- The decoded JSON of `GET {base}/projects/{project}`:
`data.get("versions", [])` reads the optional `versions` field. -/
structure ProjectDoc where
  versions : Option (List String)
  deriving DecidableEq, Repr

/-- The decoded JSON of `GET {base}/projects/{project}/versions/{version}`:
`data.get("builds", [])` reads the optional `builds` field. -/
structure VersionBuildsDoc where
  builds : Option (List Int)
  deriving DecidableEq, Repr

/-- `PaperAPI.get_available_versions` (api.py:32-39): return the `versions`
field of the project document; on any failure of the request or of JSON
decoding, log and return `[]`. -/
def paper_get_available_versions (net : Except PyError ProjectDoc) : List String :=
  match net with
  | .ok data => data.versions.getD []
  | .error _ => []

/-- `PaperAPI.get_builds` (api.py:50-57): the `builds` field of the
per-version document; `[]` on any failure. -/
def paper_get_builds (net : Except PyError VersionBuildsDoc) : List Int :=
  match net with
  | .ok data => data.builds.getD []
  | .error _ => []

/-- `LeafAPI.get_available_versions` (api.py:94-101), identical in shape to
the Paper client against the Leaf base URL. -/
def leaf_get_available_versions (net : Except PyError ProjectDoc) : List String :=
  match net with
  | .ok data => data.versions.getD []
  | .error _ => []

/-- `LeafAPI.get_builds` (api.py:112-119). -/
def leaf_get_builds (net : Except PyError VersionBuildsDoc) : List Int :=
  match net with
  | .ok data => data.builds.getD []
  | .error _ => []

/-- `PaperAPI._fetch_version_info` (api.py:68-73): the version document, or
`None` when the request raised (the `except Exception` swallows the error). -/
def paper_fetch_version_info (net : Except PyError VersionBuildsDoc) :
    Option VersionBuildsDoc :=
  match net with
  | .ok data => some data
  | .error _ => none

/-- The `"version_info_<version>"` cache key (base_api.py:299). -/
def version_info_key (version : String) : String :=
  "version_info_" ++ version

/-- The `_cache` and the count of network fetches performed so far by one
`PaperAPI` instance. -/
structure PaperCacheState where
  cache : List (String × Option VersionBuildsDoc)
  fetches : Nat
  deriving DecidableEq, Repr

/-- `MinecraftServerAPI.get_version_info` (base_api.py:289-304) as `PaperAPI`
inherits it: `get_cached_or_fetch` applied to `_fetch_version_info`, which
never raises (it catches everything and returns `None`), so the stored value
is the `Option` the fetch produced.  `net n` is the outcome of the `n`-th
network request this instance performs; the fetch counter advances exactly
when the cache missed.  The `Option.join` collapses Python's two identical
`None`s: a cached `None` and the never-occurring raising-fetch `None`. -/
def paper_get_version_info (net : Nat → Except PyError VersionBuildsDoc)
    (version : String) (st : PaperCacheState) :
    Option VersionBuildsDoc × PaperCacheState :=
  let cache_key := version_info_key version
  let (r, cache') := get_cached_or_fetch st.cache cache_key
    (fun _ => .ok (paper_fetch_version_info (net st.fetches)))
  let fetches' := if (st.cache.lookup cache_key).isSome then st.fetches else st.fetches + 1
  (r.join, { cache := cache', fetches := fetches' })

/-! ## `MinecraftVersionAPI` (`svforge/utils/api.py`) -/

/-- One entry of the Mojang manifest's `versions` array (`id`, `type`,
`url`). -/
structure ManifestEntry where
  id : String
  vtype : String
  url : String
  deriving DecidableEq, Repr

/-- The decoded Mojang version manifest. -/
structure VersionManifest where
  versions : List ManifestEntry
  deriving DecidableEq, Repr

/-- The decoded per-version detail document: `downloads.server.url` when the
`downloads`/`server` keys exist, and `javaVersion.majorVersion` when
`javaVersion` exists. -/
structure VersionDetail where
  server_url : Option String
  java_major : Option Nat
  deriving DecidableEq, Repr

/-- Split a character list at the dots. -/
def splitDotsAux : List Char → List Char → List (List Char)
  | [], acc => [acc.reverse]
  | '.' :: rest, acc => acc.reverse :: splitDotsAux rest []
  | c :: rest, acc => splitDotsAux rest (c :: acc)

/-- Decimal value of a digit list. -/
def digitsToNat (l : List Char) : Nat :=
  l.foldl (fun n c => n * 10 + (c.toNat - 48)) 0

/-- Strip trailing zero components, as `packaging` normalizes
`1.21.0 == 1.21`. -/
def dropTrailingZeros (l : List Nat) : List Nat :=
  (l.reverse.dropWhile (fun n => n = 0)).reverse

/-- `packaging.version.parse` restricted to the dotted numeric release ids
the manifest code compares: the normalized component list, or `none` when a
component is empty or non-numeric (where `parse` raises
`InvalidVersion`). -/
def versionKey (s : String) : Option (List Nat) :=
  let parts := splitDotsAux s.data []
  if parts.all (fun p => !p.isEmpty && p.all Char.isDigit) then
    some (dropTrailingZeros (parts.map digitsToNat))
  else
    none

/-- Reading `self.attr` when `attr` may never have been assigned:
an absent attribute raises `AttributeError`. -/
def readAttr {α : Type} : Option α → Except PyError α
  | none => .error .attributeError
  | some a => .ok a

/-- The attributes of one `MinecraftVersionAPI` instance.  The initializer
chain (`api.py:153-156`, `base_api.py:284-287`, `base_api.py:142-151`,
`base_api.py:34-43`, `base_api.py:239-242`) assigns `base_url`, `timeout`,
`_session = None`, `_async_client = None`, `_cache = {}` and the two nested
clients.  The methods additionally read `self.MOJANG_MANIFEST_URL`
(api.py:197,215), `self._version_cache` (api.py:212-228), `self._client`
(api.py:268,279,299,310), `self.PAPER_API_URL` (api.py:268,280,292) and
`self.LEAF_API_URL` (api.py:299,311,323), none of which any initializer or
class body assigns: those are the `Option` fields, `none` meaning the
attribute is absent and reading it raises `AttributeError`. -/
structure MCVersionAPI where
  base_url : String
  cache : List (String × Option VersionDetail)
  version_cache : Option (List (String × VersionDetail))
  mojang_url_attr : Option String
  client_attr : Option Unit
  paper_url_attr : Option String
  leaf_url_attr : Option String
  deriving Repr

/-- `constants.MOJANG_MANIFEST_URL` (constants.py:80). -/
def MOJANG_MANIFEST_URL : String :=
  "https://launchermeta.mojang.com/mc/game/version_manifest.json"

/-- The state of a freshly constructed `MinecraftVersionAPI()`. -/
def mcInit : MCVersionAPI :=
  { base_url := MOJANG_MANIFEST_URL
    cache := []
    version_cache := none
    mojang_url_attr := none
    client_attr := none
    paper_url_attr := none
    leaf_url_attr := none }

/-- The `try` body of `MinecraftVersionAPI.get_vanilla_versions`
(api.py:196-204): fetch `self.MOJANG_MANIFEST_URL` (an unassigned
attribute), decode, keep the ids of the `type == "release"` entries. -/
def mc_get_vanilla_versions_body (st : MCVersionAPI)
    (net : Except PyError VersionManifest) : Except PyError (List String) := do
  let _url ← readAttr st.mojang_url_attr
  let data ← net
  pure ((data.versions.filter (fun v => v.vtype = "release")).map (fun v => v.id))

/-- `MinecraftVersionAPI.get_vanilla_versions` (api.py:194-207): the body
above with `except Exception` returning `[]`. -/
def mc_get_vanilla_versions (st : MCVersionAPI)
    (net : Except PyError VersionManifest) : List String :=
  match mc_get_vanilla_versions_body st net with
  | .ok vs => vs
  | .error _ => []

/-- The release-entry scan of `get_version_info` (api.py:221-222): for each
`type == "release"` entry compare `version.parse(entry.id)` with the target
(a malformed id makes `parse` raise). -/
def findReleaseEntry (target : List Nat) :
    List ManifestEntry → Except PyError (Option ManifestEntry)
  | [] => .ok none
  | e :: rest =>
    if e.vtype = "release" then
      match versionKey e.id with
      | none => .error .invalidVersion
      | some k =>
        if k = target then .ok (some e) else findReleaseEntry target rest
    else findReleaseEntry target rest

/-- The `try` body of `MinecraftVersionAPI.get_version_info` (api.py:211-232):
consult `self._version_cache` (an attribute never assigned), fetch the
manifest from `self.MOJANG_MANIFEST_URL` (never assigned either), parse the
requested version, scan the release entries for an exact parsed-version
match, follow the entry's detail URL and record the detail document in
`_version_cache`.  Returns the found document (or `None`) together with the
updated `_version_cache` content. -/
def mc_get_version_info_body (st : MCVersionAPI)
    (net : Except PyError VersionManifest)
    (detail_net : String → Except PyError VersionDetail) (version_str : String) :
    Except PyError (Option VersionDetail × List (String × VersionDetail)) := do
  let vcache ← readAttr st.version_cache
  match vcache.lookup version_str with
  | some d => pure (some d, vcache)
  | none => do
    let _url ← readAttr st.mojang_url_attr
    let data ← net
    let target ← match versionKey version_str with
      | none => .error .invalidVersion
      | some t => pure t
    match ← findReleaseEntry target data.versions with
    | some entry => do
      let detail ← detail_net entry.url
      pure (some detail, (version_str, detail) :: vcache)
    | none => pure (none, vcache)

/-- `MinecraftVersionAPI.get_version_info` (api.py:209-236): the body with
the blanket `except Exception` handler returning `None` (api.py:234-236). -/
def mc_get_version_info (st : MCVersionAPI) (net : Except PyError VersionManifest)
    (detail_net : String → Except PyError VersionDetail) (version_str : String) :
    Option VersionDetail :=
  match mc_get_version_info_body st net detail_net version_str with
  | .ok (r, _) => r
  | .error _ => none

/-- `MinecraftVersionAPI.get_server_jar_url` (api.py:258-263): the
`downloads.server.url` of the version info when present. -/
def mc_get_server_jar_url (st : MCVersionAPI) (net : Except PyError VersionManifest)
    (detail_net : String → Except PyError VersionDetail) (minecraft_version : String) :
    Option String :=
  match mc_get_version_info st net detail_net minecraft_version with
  | some info => info.server_url
  | none => none

/-- The `try` body of `MinecraftVersionAPI.get_paper_versions`
(api.py:267-271): `self._client.get(f"{self.PAPER_API_URL}/projects/paper")`
reads two attributes never assigned (`_client` first), then decodes. -/
def mc_get_paper_versions_body (st : MCVersionAPI)
    (net : Except PyError ProjectDoc) : Except PyError (List String) := do
  let _client ← readAttr st.client_attr
  let _url ← readAttr st.paper_url_attr
  let data ← net
  pure (data.versions.getD [])

/-- `MinecraftVersionAPI.get_paper_versions` (api.py:265-274): the body with
`except Exception` returning `[]`. -/
def mc_get_paper_versions (st : MCVersionAPI) (net : Except PyError ProjectDoc) :
    List String :=
  match mc_get_paper_versions_body st net with
  | .ok vs => vs
  | .error _ => []

/-- `MinecraftVersionAPI.get_leaf_versions` (api.py:296-305), the mirror of
`get_paper_versions` against `self.LEAF_API_URL`. -/
def mc_get_leaf_versions_body (st : MCVersionAPI)
    (net : Except PyError ProjectDoc) : Except PyError (List String) := do
  let _client ← readAttr st.client_attr
  let _url ← readAttr st.leaf_url_attr
  let data ← net
  pure (data.versions.getD [])

/-- `MinecraftVersionAPI.get_leaf_versions` (api.py:296-305): `[]` on any
raised error. -/
def mc_get_leaf_versions (st : MCVersionAPI) (net : Except PyError ProjectDoc) :
    List String :=
  match mc_get_leaf_versions_body st net with
  | .ok vs => vs
  | .error _ => []

/-! ## Constants (`svforge/constants.py`) -/

/-- `constants.DEFAULT_MINECRAFT_VERSIONS` (constants.py:103-121), the static
fallback list. -/
def DEFAULT_MINECRAFT_VERSIONS : List String :=
  ["1.7.2", "1.7.4", "1.7.5", "1.7.6", "1.7.7", "1.7.8", "1.7.9", "1.7.10",
   "1.8", "1.8.1", "1.8.2", "1.8.3", "1.8.4", "1.8.5", "1.8.6", "1.8.7", "1.8.8", "1.8.9",
   "1.9", "1.9.1", "1.9.2", "1.9.3", "1.9.4",
   "1.10", "1.10.1", "1.10.2",
   "1.11", "1.11.1", "1.11.2",
   "1.12", "1.12.1", "1.12.2",
   "1.13", "1.13.1", "1.13.2",
   "1.14", "1.14.1", "1.14.2", "1.14.3", "1.14.4",
   "1.15", "1.15.1", "1.15.2",
   "1.16", "1.16.1", "1.16.2", "1.16.3", "1.16.4", "1.16.5",
   "1.17", "1.17.1",
   "1.18", "1.18.1", "1.18.2",
   "1.19", "1.19.1", "1.19.2", "1.19.3", "1.19.4",
   "1.20", "1.20.1", "1.20.2", "1.20.3", "1.20.4", "1.20.5", "1.20.6",
   "1.21", "1.21.1", "1.21.2", "1.21.3", "1.21.4", "1.21.5", "1.21.6", "1.21.7", "1.21.8"]

/-- `constants.FORGE_SUPPORTED_VERSIONS` (constants.py:124-140). -/
def FORGE_SUPPORTED_VERSIONS : List String :=
  ["1.7.10",
   "1.8", "1.8.9",
   "1.9", "1.9.4",
   "1.10", "1.10.2",
   "1.11", "1.11.2",
   "1.12", "1.12.1", "1.12.2",
   "1.13", "1.13.2",
   "1.14", "1.14.1", "1.14.2", "1.14.3", "1.14.4",
   "1.15", "1.15.1", "1.15.2",
   "1.16", "1.16.1", "1.16.2", "1.16.3", "1.16.4", "1.16.5",
   "1.17", "1.17.1",
   "1.18", "1.18.1", "1.18.2",
   "1.19", "1.19.1", "1.19.2", "1.19.3", "1.19.4",
   "1.20", "1.20.1", "1.20.2", "1.20.3", "1.20.4", "1.20.5", "1.20.6",
   "1.21", "1.21.1", "1.21.2", "1.21.3", "1.21.4", "1.21.5", "1.21.6", "1.21.7", "1.21.8"]

/-- `constants.SPIGOT_SUPPORTED_VERSIONS` (constants.py:143-159). -/
def SPIGOT_SUPPORTED_VERSIONS : List String :=
  ["1.8", "1.8.3", "1.8.7", "1.8.8",
   "1.9", "1.9.2", "1.9.4",
   "1.10", "1.10.2",
   "1.11", "1.11.2",
   "1.12", "1.12.1", "1.12.2",
   "1.13", "1.13.1", "1.13.2",
   "1.14", "1.14.1", "1.14.2", "1.14.3", "1.14.4",
   "1.15", "1.15.1", "1.15.2",
   "1.16", "1.16.1", "1.16.2", "1.16.3", "1.16.4", "1.16.5",
   "1.17", "1.17.1",
   "1.18", "1.18.1", "1.18.2",
   "1.19", "1.19.1", "1.19.2", "1.19.3", "1.19.4",
   "1.20", "1.20.1", "1.20.2", "1.20.3", "1.20.4", "1.20.5", "1.20.6",
   "1.21", "1.21.1", "1.21.2", "1.21.3", "1.21.4", "1.21.5", "1.21.6", "1.21.7", "1.21.8"]

/-- `constants.MIN_RAM_MB` / `MAX_RAM_MB` / `MIN_PORT` / `MAX_PORT`
(constants.py:11-16). -/
def MIN_RAM_MB : Int := 512

/-- `constants.MAX_RAM_MB`. -/
def MAX_RAM_MB : Int := 32768

/-- `constants.MIN_PORT`. -/
def MIN_PORT : Int := 1024

/-- `constants.MAX_PORT`. -/
def MAX_PORT : Int := 65535

/-! ## Server construction and the version gate (`svforge/servers/*.py`) -/

/-- `version.strip()`. -/
def pyStrip (s : String) : String :=
  String.mk (((s.data.dropWhile Char.isWhitespace).reverse.dropWhile
    Char.isWhitespace).reverse)

/-- `BaseServer.__init__` (base.py:27-58) with the cli's default
`install_directory = None` (so `validate_install_directory` returns `None`
at once: no directory is touched): validate the version string, the RAM
bound and the port bound, strip and store the version; `_api` and
`_download_manager` are set to `None`.  Returns the stored version. -/
def base_server_init (version : String) (ram_allocation server_port : Int) :
    Except PyError String :=
  if pyStrip version = "" then .error .validationError
  else if ram_allocation < MIN_RAM_MB || MAX_RAM_MB < ram_allocation then
    .error .validationError
  else if server_port < MIN_PORT || MAX_PORT < server_port then
    .error .validationError
  else .ok (pyStrip version)

/-- `VanillaServer.supported_versions` (vanilla.py:31-43): with an API client
ask `get_vanilla_versions` and fall back to the static list when it comes
back empty; without a client (`_api = None`, the state during `__init__`)
use the static list directly. -/
def vanilla_supported_versions (api : Option MCVersionAPI)
    (net : Except PyError VersionManifest) : List String :=
  match api with
  | some st =>
    let vs := mc_get_vanilla_versions st net
    if vs.isEmpty then DEFAULT_MINECRAFT_VERSIONS else vs
  | none => DEFAULT_MINECRAFT_VERSIONS

/-- `PaperServer.supported_versions` (paper.py:30-42): both branches of the
`try` evaluate `self._api.get_paper_versions()`; with `_api = None` (the
state during `__init__`, base.py:54) the attribute access on `None` raises
`AttributeError`, which no handler catches (`except RuntimeError` only).
There is no static fallback. -/
def paper_supported_versions (api : Option MCVersionAPI)
    (net : Except PyError ProjectDoc) : Except PyError (List String) :=
  match api with
  | none => .error .attributeError
  | some st => .ok (mc_get_paper_versions st net)

/-- The filter of Leaf's static fallback (leaf.py:44-48):
`v.startswith(('1.19.', '1.20.', '1.21.'))` — note the trailing dots, which
exclude the bare `1.19`/`1.20`/`1.21`. -/
def leafFallbackKeep (v : String) : Bool :=
  strStartsWith "1.19." v || strStartsWith "1.20." v || strStartsWith "1.21." v

/-- `LeafServer.supported_versions` (leaf.py:31-49): like Paper via
`self._api.get_leaf_versions()` (so an `AttributeError` when `_api = None`),
but an empty result falls back to the filtered static list. -/
def leaf_supported_versions (api : Option MCVersionAPI)
    (net : Except PyError ProjectDoc) : Except PyError (List String) :=
  match api with
  | none => .error .attributeError
  | some st =>
    let vs := mc_get_leaf_versions st net
    .ok (if vs.isEmpty then DEFAULT_MINECRAFT_VERSIONS.filter leafFallbackKeep else vs)

/-- `VanillaServer.__init__` (vanilla.py:22-25): base init, then
`_validate_version_support` (base.py:60-64), which raises
`UnsupportedVersionError` when the version is not in `supported_versions`.
`net` is the would-be manifest request; it is never performed because
`_api = None` during `__init__`. -/
def vanilla_server_init (net : Except PyError VersionManifest) (version : String)
    (ram_allocation server_port : Int) : Except PyError String := do
  let v ← base_server_init version ram_allocation server_port
  if (vanilla_supported_versions none net).contains v then pure v
  else throw .unsupportedVersionError

/-- `SpigotServer.__init__` (spigot.py:27-30): base init, then the version
gate against the static `SPIGOT_SUPPORTED_VERSIONS`. -/
def spigot_server_init (version : String) (ram_allocation server_port : Int) :
    Except PyError String := do
  let v ← base_server_init version ram_allocation server_port
  if SPIGOT_SUPPORTED_VERSIONS.contains v then pure v
  else throw .unsupportedVersionError

/-- `ForgeServer.__init__` (forge.py:28-32): base init, store
`forge_version`, then the version gate against the static
`FORGE_SUPPORTED_VERSIONS`. -/
def forge_server_init (version : String) (forge_version : Option String)
    (ram_allocation server_port : Int) : Except PyError (String × Option String) := do
  let v ← base_server_init version ram_allocation server_port
  if FORGE_SUPPORTED_VERSIONS.contains v then pure (v, forge_version)
  else throw .unsupportedVersionError

/-- `PaperServer.__init__` (paper.py:20-24): base init, store `build`, then
`_validate_version_support`, whose `supported_versions` read crashes on
`self._api = None`. -/
def paper_server_init (net : Except PyError ProjectDoc) (version : String)
    (build : Option Int) (ram_allocation server_port : Int) :
    Except PyError (String × Option Int) := do
  let v ← base_server_init version ram_allocation server_port
  let supported ← paper_supported_versions none net
  if supported.contains v then pure (v, build)
  else throw .unsupportedVersionError

/-- `LeafServer.__init__` (leaf.py:21-25), same shape as Paper. -/
def leaf_server_init (net : Except PyError ProjectDoc) (version : String)
    (build : Option Int) (ram_allocation server_port : Int) :
    Except PyError (String × Option Int) := do
  let v ← base_server_init version ram_allocation server_port
  let supported ← leaf_supported_versions none net
  if supported.contains v then pure (v, build)
  else throw .unsupportedVersionError

/-! ## Build selection (`svforge/servers/paper.py`, `svforge/servers/leaf.py`) -/

/-- `PaperServer.get_latest_build` (paper.py:53-56):
`max(builds) if builds else None` over what `get_available_builds`
returned. -/
def paper_get_latest_build (builds : List Int) : Option Int :=
  builds.max?

/-- `PaperServer.ensure_build_selected` (paper.py:58-68): when `self.build`
is `None`, resolve it to the latest build, failing (returning `False`,
leaving `build` unset) when there is none; a set `build` is left untouched.
Returns the method's boolean and the new value of `self.build`. -/
def paper_ensure_build_selected (build : Option Int) (builds : List Int) :
    Bool × Option Int :=
  match build with
  | none =>
    match paper_get_latest_build builds with
    | none => (false, none)
    | some latest_build => (true, some latest_build)
  | some b => (true, some b)

/-- `LeafServer.get_latest_build` (leaf.py:64-67). -/
def leaf_get_latest_build (builds : List Int) : Option Int :=
  builds.max?

/-- `LeafServer.ensure_build_selected` (leaf.py:69-79), identical in shape
to Paper's. -/
def leaf_ensure_build_selected (build : Option Int) (builds : List Int) :
    Bool × Option Int :=
  match build with
  | none =>
    match leaf_get_latest_build builds with
    | none => (false, none)
    | some latest_build => (true, some latest_build)
  | some b => (true, some b)

/-! ## The installation pipeline (`svforge/servers/base.py`) -/

/-- What one installation step does when run: return a boolean, or raise
with a message. -/
inductive StepOutcome where
  | ret : Bool → StepOutcome
  | raise : String → StepOutcome
  deriving DecidableEq, Repr

/-- The fixed `install_steps` list (base.py:280-286), in source order:
ensure Java, acquire the artifact, write `server.properties`, write the
start script, write `eula.txt`. -/
def install_steps : List String :=
  ["Java installation", "Server jar download", "Server properties creation",
   "Start script creation", "EULA file creation"]

/-- The step loop of `BaseServer.install` (base.py:291-309).  A step
returning `False` raises `ServerInstallationError` inside the per-step
`try` (base.py:302), which the per-step `except Exception` immediately
re-wraps with the step name again (base.py:306-309); a step that raises is
wrapped once.  Either way the loop stops: no later step runs.  Returns the
list of steps that were started, in order, and the overall outcome. -/
def installLoop (outcome : String → StepOutcome) :
    List String → List String × Except PyError Bool
  | [] => ([], .ok true)
  | step_name :: rest =>
    match outcome step_name with
    | .ret true =>
      let (trace, res) := installLoop outcome rest
      (step_name :: trace, res)
    | .ret false =>
      ([step_name], .error (.serverInstallationError
        ("Installation failed at step '" ++ step_name ++
         "': Installation failed at step '" ++ step_name ++ "'")))
    | .raise msg =>
      ([step_name], .error (.serverInstallationError
        ("Installation failed at step '" ++ step_name ++ "': " ++ msg)))

/-- `BaseServer.install` (base.py:278-320): run the five steps in order;
`.ok true` when all succeeded. -/
def install (outcome : String → StepOutcome) : List String × Except PyError Bool :=
  installLoop outcome install_steps

/-! ## Derived notions used by the statements -/

/-- The running totals of the chunk lengths starting from `acc`:
`runningTotals 0 chunks` is the sequence of `downloaded` values, one per
chunk. -/
def runningTotals : Nat → List (List Nat) → List Nat
  | _, [] => []
  | acc, chunk :: rest => (acc + chunk.length) :: runningTotals (acc + chunk.length) rest

/-- A component list is clean when resolution leaves it unchanged: no empty,
`.` or `..` segments. -/
def cleanComp (c : String) : Bool :=
  !(c = "") && !(c = ".") && !(c = "..")

/-- A concrete Mojang manifest holding exactly the release entry the
vanilla-resolver claim is about. -/
def sampleManifest : VersionManifest :=
  { versions := [{ id := "1.20.4", vtype := "release",
                   url := "https://piston-meta.mojang.com/v1/packages/abc/1.20.4.json" }] }

/-- The detail documents behind `sampleManifest`: the entry's URL yields a
document with a server download and a Java major version. -/
def sampleDetailNet : String → Except PyError VersionDetail := fun url =>
  if url = "https://piston-meta.mojang.com/v1/packages/abc/1.20.4.json" then
    .ok { server_url := some "https://piston-data.mojang.com/v1/objects/def/server.jar"
          java_major := some 17 }
  else
    .error .apiError

-- Quick sanity checks of the embedding on concrete inputs.
example : validate_server_name "paper" = true := by decide
example : validate_server_name "../etc" = false := by decide
example : validate_server_name "con" = false := by decide
example : validate_server_name ".hidden" = false := by decide
example : sanitize_path_component "1.21.4" = .ok "1.21.4" := by decide
example : resolveComponents ["srv", "mc", "..", "etc"] = ["srv", "etc"] := by decide
example :
    validate_and_resolve_path ["srv", "mc-evil"] ["srv", "mc"] = .ok ["srv", "mc-evil"] := by
  decide
example : ¬ isWithinRoot ["srv", "mc-evil"] ["srv", "mc"] := by decide
example :
    get_server_directory ["home", "minecraft_servers"] "paper" "1.21" 0 =
      .ok { path := ["home", "minecraft_servers", "paper-1.21"], mode := 0o755 } := by
  decide
example :
    get_server_directory ["home", "minecraft_servers"] "paper" "1.21" 2 =
      .ok { path := ["home", "minecraft_servers", "paper-1.21-2"], mode := 0o755 } := by
  decide
example :
    find_available_server_directory (fun _ => .absent) ["home", "minecraft_servers"]
      "paper" "1.21" =
      .ok { path := ["home", "minecraft_servers", "paper-1.21"], mode := 0o755 } := by
  decide
example :
    find_available_server_directory
      (fun p => if p = ["home", "minecraft_servers", "paper-1.21"] then .nonEmpty else .absent)
      ["home", "minecraft_servers"] "paper" "1.21" =
      .ok { path := ["home", "minecraft_servers", "paper-1.21-1"], mode := 0o755 } := by
  decide
example : paper_get_available_versions (.error .apiError) = [] := by decide
example : paper_get_builds (.ok { builds := some [100, 102, 101] }) = [100, 102, 101] := by
  decide
example : paper_ensure_build_selected none [100, 102, 101] = (true, some 102) := by decide
example : paper_ensure_build_selected (some 97) [100, 102, 101] = (true, some 97) := by decide
example : mc_get_paper_versions mcInit (.ok { versions := some ["1.21"] }) = [] := by decide
example : mc_get_vanilla_versions mcInit (.ok sampleManifest) = [] := by decide
example : mc_get_server_jar_url mcInit (.ok sampleManifest) sampleDetailNet "1.20.4" = none := by
  decide
example :
    paper_server_init (.ok { versions := some ["1.21"] }) "1.21" none 2048 25565 =
      .error .attributeError := by
  decide
example : vanilla_server_init (.error .apiError) "1.21" 2048 25565 = .ok "1.21" := by decide
example : vanilla_server_init (.error .apiError) "9.9.9" 2048 25565 =
    .error .unsupportedVersionError := by decide
example : spigot_server_init "1.21" 2048 25565 = .ok "1.21" := by decide
example :
    install (fun _ => .ret true) = (install_steps, .ok true) := by decide
example :
    install (fun s => if s = "Server jar download" then .ret false else .ret true) =
      (["Java installation", "Server jar download"],
        .error (.serverInstallationError
          "Installation failed at step 'Server jar download': Installation failed at step 'Server jar download'")) := by
  decide
example :
    download_file (some 10) [[1, 2, 3], [4, 5], [6, 7, 8, 9, 10]] true =
      { fileBytes := [1, 2, 3, 4, 5, 6, 7, 8, 9, 10]
        events := [(3, 10), (5, 10), (10, 10)]
        result := true } := by
  decide
example : (download_file none [[1, 2, 3]] true).events = [] := by decide

/-! ## Helper lemmas -/

theorem installLoop_all_ok (outcome : String → StepOutcome) :
    ∀ l : List String, (∀ s ∈ l, outcome s = .ret true) →
      installLoop outcome l = (l, .ok true) := by
  intro l
  induction l with
  | nil => intro _; rfl
  | cons a rest ih =>
    intro h
    have ha := h a (List.mem_cons_self a rest)
    have hrest := ih fun s hs => h s (List.mem_cons_of_mem a hs)
    simp [installLoop, ha, hrest]

theorem installLoop_fail_ret (outcome : String → StepOutcome) (name : String)
    (post : List String) (hname : outcome name = .ret false) :
    ∀ pre : List String, (∀ s ∈ pre, outcome s = .ret true) →
      installLoop outcome (pre ++ name :: post) =
        (pre ++ [name], .error (.serverInstallationError
          ("Installation failed at step '" ++ name ++
           "': Installation failed at step '" ++ name ++ "'"))) := by
  intro pre
  induction pre with
  | nil => intro _; simp [installLoop, hname]
  | cons a rest ih =>
    intro h
    have ha := h a (List.mem_cons_self a rest)
    have hrest := ih fun s hs => h s (List.mem_cons_of_mem a hs)
    simp [installLoop, ha, hrest]

theorem installLoop_fail_raise (outcome : String → StepOutcome) (name : String)
    (post : List String) (msg : String) (hname : outcome name = .raise msg) :
    ∀ pre : List String, (∀ s ∈ pre, outcome s = .ret true) →
      installLoop outcome (pre ++ name :: post) =
        (pre ++ [name], .error (.serverInstallationError
          ("Installation failed at step '" ++ name ++ "': " ++ msg))) := by
  intro pre
  induction pre with
  | nil => intro _; simp [installLoop, hname]
  | cons a rest ih =>
    intro h
    have ha := h a (List.mem_cons_self a rest)
    have hrest := ih fun s hs => h s (List.mem_cons_of_mem a hs)
    simp [installLoop, ha, hrest]

/-! ## The claims -/

/-- C8: `BaseServer.install` runs exactly the fixed five-step sequence in
order; when every step returns `True` every step runs and the pipeline
returns `True`; the first step that returns `False` or raises stops the
pipeline with a `ServerInstallationError` whose message names that step
(wrapping the underlying message), the steps before it having run and no
later step being attempted (the returned trace is exactly the prefix up to
and including the failing step); nothing is rolled back — the model records
no undo of the completed steps. -/
theorem install_pipeline_fixed_sequence (outcome : String → StepOutcome) :
    ((∀ s ∈ install_steps, outcome s = .ret true) →
      install outcome = (install_steps, .ok true))
  ∧ (∀ pre name post, install_steps = pre ++ name :: post →
      (∀ s ∈ pre, outcome s = .ret true) →
      (outcome name = .ret false →
        install outcome = (pre ++ [name], .error (.serverInstallationError
          ("Installation failed at step '" ++ name ++
           "': Installation failed at step '" ++ name ++ "'")))) ∧
      (∀ msg, outcome name = .raise msg →
        install outcome = (pre ++ [name], .error (.serverInstallationError
          ("Installation failed at step '" ++ name ++ "': " ++ msg))))) := by
  constructor
  · intro h
    exact installLoop_all_ok outcome install_steps h
  · intro pre name post hsteps hpre
    constructor
    · intro hf
      unfold install
      rw [hsteps]
      exact installLoop_fail_ret outcome name post hf pre hpre
    · intro msg hf
      unfold install
      rw [hsteps]
      exact installLoop_fail_raise outcome name post msg hf pre hpre

/-- Witness for C8: a pipeline whose third step raises stops after the third
step with the step's name in the error, the first two steps having run. -/
theorem install_pipeline_fixed_sequence_witness :
    install (fun s => if s = "Server properties creation" then .raise "disk full"
                      else .ret true) =
      (["Java installation", "Server jar download", "Server properties creation"],
        .error (.serverInstallationError
          "Installation failed at step 'Server properties creation': disk full")) := by
  have h := (install_pipeline_fixed_sequence
      (fun s => if s = "Server properties creation" then .raise "disk full"
                else .ret true)).2
      ["Java installation", "Server jar download"] "Server properties creation"
      ["Start script creation", "EULA file creation"] (by decide) (by decide)
  simpa using h.2 "disk full" (by decide)

/-- C5: every resolver-level version-list or build-list call returns the
empty sequence on any network or parse failure of the underlying fetch, and
(being total functions into `List`) propagates no exception: Paper and Leaf
`get_available_versions`/`get_builds` on a failed request, and
`get_vanilla_versions` on a fresh `MinecraftVersionAPI` for every request
outcome (its body raises `AttributeError` on the unassigned
`self.MOJANG_MANIFEST_URL` before the request, and the handler returns
`[]`). -/
theorem resolver_list_calls_degrade_to_empty :
    (∀ e : PyError,
       paper_get_available_versions (.error e) = []
     ∧ paper_get_builds (.error e) = []
     ∧ leaf_get_available_versions (.error e) = []
     ∧ leaf_get_builds (.error e) = [])
  ∧ (∀ net : Except PyError VersionManifest, mc_get_vanilla_versions mcInit net = []) :=
  ⟨fun _ => ⟨rfl, rfl, rfl, rfl⟩, fun _ => rfl⟩

/-- C7: `ensure_build_selected` (Paper and Leaf) leaves a build chosen at
construction untouched; with no build chosen it resolves to
`max(get_available_builds())` when that list is non-empty, setting the field
exactly once (a later call with the field set takes the untouched branch
regardless of the build list), and fails, leaving the field unset, when the
list is empty. -/
theorem build_selection_lazy_resolution :
    ∀ (b : Int) (builds : List Int),
      paper_ensure_build_selected (some b) builds = (true, some b)
    ∧ leaf_ensure_build_selected (some b) builds = (true, some b)
    ∧ paper_ensure_build_selected none [] = (false, none)
    ∧ leaf_ensure_build_selected none [] = (false, none)
    ∧ (builds ≠ [] →
        ∃ m, builds.max? = some m
          ∧ paper_ensure_build_selected none builds = (true, some m)
          ∧ leaf_ensure_build_selected none builds = (true, some m)
          ∧ (∀ builds2 : List Int,
              paper_ensure_build_selected (some m) builds2 = (true, some m)
            ∧ leaf_ensure_build_selected (some m) builds2 = (true, some m))) := by
  intro b builds
  refine ⟨rfl, rfl, rfl, rfl, ?_⟩
  intro hne
  obtain ⟨x, xs, rfl⟩ := List.exists_cons_of_ne_nil hne
  exact ⟨xs.foldl max x, rfl, rfl, rfl, fun _ => ⟨rfl, rfl⟩⟩

/-- Witness for C7: with builds `[100, 102, 101]` and no chosen build, both
variants select build `102`; a pre-chosen build `97` survives. -/
theorem build_selection_lazy_resolution_witness :
    paper_ensure_build_selected none [100, 102, 101] = (true, some 102)
    ∧ leaf_ensure_build_selected none [100, 102, 101] = (true, some 102)
    ∧ paper_ensure_build_selected (some 97) [100, 102, 101] = (true, some 97) := by
  obtain ⟨m, hm, hp, hl, hstable⟩ :=
    (build_selection_lazy_resolution 97 [100, 102, 101]).2.2.2.2 (by decide)
  have hm102 : m = 102 := by
    have h102 : ([100, 102, 101] : List Int).max? = some 102 := by decide
    rw [hm] at h102
    exact Option.some.inj h102
  subst hm102
  exact ⟨hp, hl, (build_selection_lazy_resolution 97 [100, 102, 101]).1⟩

theorem downloadLoop_fst (total : Nat) (cb : Bool) :
    ∀ (chunks : List (List Nat)) (d : Nat),
      (downloadLoop total cb chunks d).1 = chunks.flatten := by
  intro chunks
  induction chunks with
  | nil => intro d; rfl
  | cons c rest ih => intro d; simp [downloadLoop, ih]

theorem downloadLoop_snd_pos (total : Nat) (htotal : 0 < total) :
    ∀ (chunks : List (List Nat)) (d : Nat),
      (downloadLoop total true chunks d).2 =
        (runningTotals d chunks).map (fun x => (x, total)) := by
  intro chunks
  induction chunks with
  | nil => intro d; rfl
  | cons c rest ih =>
    intro d
    simp [downloadLoop, runningTotals, ih, htotal]

theorem downloadLoop_snd_off (total : Nat) (cb : Bool)
    (hoff : cb = false ∨ total = 0) :
    ∀ (chunks : List (List Nat)) (d : Nat),
      (downloadLoop total cb chunks d).2 = [] := by
  rcases hoff with h | h
  all_goals subst h
  all_goals intro chunks
  all_goals induction chunks with
  | nil => intro d; rfl
  | cons c rest ih => intro d; simp [downloadLoop, ih]

theorem runningTotals_length :
    ∀ (chunks : List (List Nat)) (d : Nat),
      (runningTotals d chunks).length = chunks.length := by
  intro chunks
  induction chunks with
  | nil => intro d; rfl
  | cons c rest ih => intro d; simp [runningTotals, ih]

theorem getLast?_cons_of_ne_nil {A : Type} (a : A) {l : List A} (h : l ≠ []) :
    (a :: l).getLast? = l.getLast? := by
  cases l with
  | nil => exact absurd rfl h
  | cons b bs => rfl

theorem runningTotals_getLast? :
    ∀ (chunks : List (List Nat)) (d : Nat), chunks ≠ [] →
      (runningTotals d chunks).getLast? = some (d + chunks.flatten.length) := by
  intro chunks
  induction chunks with
  | nil => intro d h; exact absurd rfl h
  | cons c rest ih =>
    intro d _
    rcases eq_or_ne rest [] with hrest | hrest
    · subst hrest
      simp [runningTotals]
    · have hr := ih (d + c.length) hrest
      have hne : runningTotals (d + c.length) rest ≠ [] := by
        intro hnil
        have hlen := runningTotals_length rest (d + c.length)
        rw [hnil] at hlen
        exact hrest (List.length_eq_zero.mp hlen.symm)
      calc (runningTotals d (c :: rest)).getLast?
          = (runningTotals (d + c.length) rest).getLast? := by
            simp only [runningTotals]
            exact getLast?_cons_of_ne_nil _ hne
        _ = some (d + (c :: rest).flatten.length) := by
            rw [hr]
            simp [Nat.add_assoc]

theorem runningTotals_chain_and_bound :
    ∀ (chunks : List (List Nat)) (d : Nat),
      List.Chain' (fun a b => a ≤ b) (runningTotals d chunks)
    ∧ (∀ x ∈ runningTotals d chunks, d ≤ x) := by
  intro chunks
  induction chunks with
  | nil => intro d; exact ⟨List.chain'_nil, by intro x hx; cases hx⟩
  | cons c rest ih =>
    intro d
    have ihr := ih (d + c.length)
    constructor
    · simp only [runningTotals]
      rw [List.chain'_cons']
      refine ⟨?_, ihr.1⟩
      intro y hy
      exact ihr.2 y (List.mem_of_mem_head? hy)
    · intro x hx
      simp only [runningTotals, List.mem_cons] at hx
      rcases hx with rfl | hx
      · exact Nat.le_add_right d c.length
      · exact le_trans (Nat.le_add_right d c.length) (ihr.2 x hx)

theorem download_file_events (content_length : Option Nat)
    (chunks : List (List Nat)) (cb : Bool) :
    (download_file content_length chunks cb).events =
      (downloadLoop (content_length.getD 0) cb chunks 0).2 := by
  rcases h : downloadLoop (content_length.getD 0) cb chunks 0 with ⟨b, e⟩
  simp [download_file, h]

theorem download_file_fileBytes (content_length : Option Nat)
    (chunks : List (List Nat)) (cb : Bool) :
    (download_file content_length chunks cb).fileBytes =
      (downloadLoop (content_length.getD 0) cb chunks 0).1 := by
  rcases h : downloadLoop (content_length.getD 0) cb chunks 0 with ⟨b, e⟩
  simp [download_file, h]

/-- C6: for a successful `download_file` run with a callback, the bytes
written are exactly the concatenated chunks and the call returns `True`;
the callback fires once per chunk exactly when the declared total size is
positive, receiving the running sums of the chunk lengths paired with the
total (hence a non-decreasing `downloaded` sequence) whose final value is
the size of the file written; with no callback, or an absent or zero
`content-length`, the callback never fires. -/
theorem download_progress_monotone (content_length : Option Nat)
    (chunks : List (List Nat)) :
    (download_file content_length chunks true).result = true
  ∧ (download_file content_length chunks true).fileBytes = chunks.flatten
  ∧ (download_file content_length chunks false).events = []
  ∧ (content_length.getD 0 = 0 → (download_file content_length chunks true).events = [])
  ∧ (0 < content_length.getD 0 →
      (download_file content_length chunks true).events =
        (runningTotals 0 chunks).map (fun x => (x, content_length.getD 0))
    ∧ (download_file content_length chunks true).events.length = chunks.length
    ∧ List.Chain' (fun a b : ProgressEvent => a.1 ≤ b.1)
        (download_file content_length chunks true).events
    ∧ (chunks ≠ [] →
        ((download_file content_length chunks true).events.map Prod.fst).getLast? =
          some (download_file content_length chunks true).fileBytes.length)) := by
  have hbytes : (download_file content_length chunks true).fileBytes = chunks.flatten := by
    rw [download_file_fileBytes]
    exact downloadLoop_fst _ _ _ _
  refine ⟨rfl, hbytes, ?_, ?_, ?_⟩
  · rw [download_file_events]
    exact downloadLoop_snd_off _ _ (Or.inl rfl) _ _
  · intro h0
    rw [download_file_events]
    exact downloadLoop_snd_off _ _ (Or.inr h0) _ _
  · intro hpos
    have hev : (download_file content_length chunks true).events =
        (runningTotals 0 chunks).map (fun x => (x, content_length.getD 0)) := by
      rw [download_file_events]
      exact downloadLoop_snd_pos _ hpos _ _
    refine ⟨hev, ?_, ?_, ?_⟩
    · rw [hev, List.length_map, runningTotals_length]
    · rw [hev, List.chain'_map]
      exact (runningTotals_chain_and_bound chunks 0).1
    · intro hne
      rw [hev, List.map_map, hbytes]
      have hid : (Prod.fst ∘ fun x : Nat => (x, content_length.getD 0)) = id := rfl
      rw [hid, List.map_id]
      have := runningTotals_getLast? chunks 0 hne
      rwa [Nat.zero_add] at this

set_option maxRecDepth 4000 in
/-- Witness for C6: the spec scenario — a 1000-byte resource in four
250-byte chunks with `content-length: 1000` — fires the callback four times
with `250, 500, 750, 1000`, and the final value is the written size. -/
theorem download_progress_monotone_witness :
    (0 : Nat) < (some 1000 : Option Nat).getD 0
    ∧ (download_file (some 1000)
        [List.replicate 250 7, List.replicate 250 7, List.replicate 250 7,
          List.replicate 250 7] true).events =
      [(250, 1000), (500, 1000), (750, 1000), (1000, 1000)] := by
  refine ⟨by decide, ?_⟩
  have h := ((download_progress_monotone (some 1000)
      [List.replicate 250 7, List.replicate 250 7, List.replicate 250 7,
        List.replicate 250 7]).2.2.2.2 (by decide)).1
  rw [h]
  decide

/-- Counterexample for C2: with every network fetch failing, the first
`get_version_info("1.20.4")` call *does* populate the cache entry (with
`None`, because `_fetch_version_info` swallows the error and
`get_cached_or_fetch` stores whatever the fetch function returned), and the
second call returns from the cache without performing the network fetch
again: the fetch counter stays at `1`. -/
theorem version_info_cache_counterexample :
    (paper_get_version_info (fun _ => .error .apiError) "1.20.4"
        { cache := [], fetches := 0 }).2.cache.lookup (version_info_key "1.20.4") =
      some none
    ∧ (paper_get_version_info (fun _ => .error .apiError) "1.20.4"
        ((paper_get_version_info (fun _ => .error .apiError) "1.20.4"
          { cache := [], fetches := 0 }).2)).2.fetches = 1 := by
  exact ⟨by decide, by decide⟩

/-- C2 (amended): at the `get_cached_or_fetch` layer a fetch that *raises*
leaves the cache unpopulated (so a later call with the same key fetches
again), and a fetch that returns a value stores it; but the version-info
fetchers catch every exception and return `None`, so a failed version-info
fetch populates the cache entry with `None` and every later call for that
key returns `None` from the cache without refetching; once a fetch succeeds,
the value is cached and every later call returns it with no further network
fetch and no state change. -/
theorem version_info_cache_semantics :
    (∀ (cache : List (String × VersionBuildsDoc)) (key : String) (e : PyError),
       cache.lookup key = none →
       get_cached_or_fetch cache key (fun _ => .error e) = (none, cache))
  ∧ (∀ (cache : List (String × VersionBuildsDoc)) (key : String) (d : VersionBuildsDoc),
       cache.lookup key = none →
       get_cached_or_fetch cache key (fun _ => .ok d) = (some d, (key, d) :: cache))
  ∧ (∀ (net : Nat → Except PyError VersionBuildsDoc) (v : String)
       (st : PaperCacheState) (e : PyError),
       st.cache.lookup (version_info_key v) = none →
       net st.fetches = .error e →
       paper_get_version_info net v st =
         (none, { cache := (version_info_key v, none) :: st.cache
                  fetches := st.fetches + 1 })
       ∧ ∀ net2 : Nat → Except PyError VersionBuildsDoc,
           paper_get_version_info net2 v
             { cache := (version_info_key v, none) :: st.cache
               fetches := st.fetches + 1 } =
           (none, { cache := (version_info_key v, none) :: st.cache
                    fetches := st.fetches + 1 }))
  ∧ (∀ (net : Nat → Except PyError VersionBuildsDoc) (v : String)
       (st : PaperCacheState) (d : VersionBuildsDoc),
       st.cache.lookup (version_info_key v) = none →
       net st.fetches = .ok d →
       paper_get_version_info net v st =
         (some d, { cache := (version_info_key v, some d) :: st.cache
                    fetches := st.fetches + 1 })
       ∧ ∀ net2 : Nat → Except PyError VersionBuildsDoc,
           paper_get_version_info net2 v
             { cache := (version_info_key v, some d) :: st.cache
               fetches := st.fetches + 1 } =
           (some d, { cache := (version_info_key v, some d) :: st.cache
                      fetches := st.fetches + 1 })) := by
  refine ⟨?_, ?_, ?_, ?_⟩
  · intro cache key e hmiss
    simp [get_cached_or_fetch, hmiss]
  · intro cache key d hmiss
    simp [get_cached_or_fetch, hmiss]
  · intro net v st e hmiss hnet
    constructor
    · simp [paper_get_version_info, get_cached_or_fetch, hmiss, hnet,
        paper_fetch_version_info]
    · intro net2
      simp [paper_get_version_info, get_cached_or_fetch, List.lookup]
  · intro net v st d hmiss hnet
    constructor
    · simp [paper_get_version_info, get_cached_or_fetch, hmiss, hnet,
        paper_fetch_version_info]
    · intro net2
      simp [paper_get_version_info, get_cached_or_fetch, List.lookup]

/-- Witness for C2's amended statement: from an empty cache, a failing fetch
stores `None` and the follow-up call keeps the state; a succeeding fetch
stores the document and the follow-up call returns it unchanged. -/
theorem version_info_cache_semantics_witness :
    paper_get_version_info (fun _ => .error .apiError) "1.20.4"
        { cache := [], fetches := 0 } =
      (none, { cache := [(version_info_key "1.20.4", none)], fetches := 1 })
    ∧ paper_get_version_info (fun _ => .ok { builds := some [10] }) "1.20.4"
        { cache := [], fetches := 0 } =
      (some { builds := some [10] },
        { cache := [(version_info_key "1.20.4", some { builds := some [10] })]
          fetches := 1 }) := by
  constructor
  · exact ((version_info_cache_semantics.2.2.1 (fun _ => .error .apiError) "1.20.4"
      { cache := [], fetches := 0 } .apiError (by decide) (by decide)).1)
  · exact ((version_info_cache_semantics.2.2.2 (fun _ => .ok { builds := some [10] })
      "1.20.4" { cache := [], fetches := 0 } { builds := some [10] }
      (by decide) (by decide)).1)

theorem base_server_init_ok (version : String) (ram port : Int)
    (hv : pyStrip version ≠ "") (h1 : MIN_RAM_MB ≤ ram) (h2 : ram ≤ MAX_RAM_MB)
    (h3 : MIN_PORT ≤ port) (h4 : port ≤ MAX_PORT) :
    base_server_init version ram port = .ok (pyStrip version) := by
  have hr1 : ¬(ram < MIN_RAM_MB) := not_lt.mpr h1
  have hr2 : ¬(MAX_RAM_MB < ram) := not_lt.mpr h2
  have hp1 : ¬(port < MIN_PORT) := not_lt.mpr h3
  have hp2 : ¬(MAX_PORT < port) := not_lt.mpr h4
  simp [base_server_init, hv, hr1, hr2, hp1, hp2]

/-- C3 (code evaluation at the failing input): on a fresh
`MinecraftVersionAPI`, `get_version_info` and `get_server_jar_url` return
`None` for *every* manifest, detail oracle and version string — the body's
first statement reads `self._version_cache`, which no initializer assigns,
so it raises `AttributeError` and the blanket handler returns `None` before
any manifest lookup can happen.  In particular the sample manifest really
contains the release entry `1.20.4`, and its detail document really carries
`downloads.server.url`, yet the resolved URL is `None`. -/
theorem vanilla_resolver_always_none :
    (∀ (net : Except PyError VersionManifest)
       (detail_net : String → Except PyError VersionDetail) (v : String),
       mc_get_version_info mcInit net detail_net v = none
     ∧ mc_get_server_jar_url mcInit net detail_net v = none)
  ∧ ((sampleManifest.versions.filter (fun e => e.vtype = "release")).map
        (fun e => e.id) = ["1.20.4"]
     ∧ sampleDetailNet "https://piston-meta.mojang.com/v1/packages/abc/1.20.4.json" =
         .ok { server_url := some "https://piston-data.mojang.com/v1/objects/def/server.jar"
               java_major := some 17 }
     ∧ mc_get_server_jar_url mcInit (.ok sampleManifest) sampleDetailNet "1.20.4" =
         none) :=
  ⟨fun _ _ _ => ⟨rfl, rfl⟩, by decide, by decide, by decide⟩

/-- C4 (code evaluation): the version gate raises `UnsupportedVersionError`
for an unsupported version, before any network request or directory work,
for vanilla, Spigot and Forge (their gate lists are static during
`__init__`, where `_api = None`); but for Paper and Leaf the gate itself
crashes with `AttributeError` for *every* version and every would-be network
outcome, because `supported_versions` calls `self._api.get_paper_versions()`
/ `get_leaf_versions()` while `_api` is still `None`. -/
theorem version_gate_behavior :
    (∀ (net : Except PyError VersionManifest) (version : String) (ram port : Int),
       pyStrip version ≠ "" → MIN_RAM_MB ≤ ram → ram ≤ MAX_RAM_MB →
       MIN_PORT ≤ port → port ≤ MAX_PORT →
       DEFAULT_MINECRAFT_VERSIONS.contains (pyStrip version) = false →
       vanilla_server_init net version ram port = .error .unsupportedVersionError)
  ∧ (∀ (version : String) (ram port : Int),
       pyStrip version ≠ "" → MIN_RAM_MB ≤ ram → ram ≤ MAX_RAM_MB →
       MIN_PORT ≤ port → port ≤ MAX_PORT →
       SPIGOT_SUPPORTED_VERSIONS.contains (pyStrip version) = false →
       spigot_server_init version ram port = .error .unsupportedVersionError)
  ∧ (∀ (version : String) (forge_version : Option String) (ram port : Int),
       pyStrip version ≠ "" → MIN_RAM_MB ≤ ram → ram ≤ MAX_RAM_MB →
       MIN_PORT ≤ port → port ≤ MAX_PORT →
       FORGE_SUPPORTED_VERSIONS.contains (pyStrip version) = false →
       forge_server_init version forge_version ram port =
         .error .unsupportedVersionError)
  ∧ (∀ (net : Except PyError ProjectDoc) (version : String) (build : Option Int)
       (ram port : Int),
       pyStrip version ≠ "" → MIN_RAM_MB ≤ ram → ram ≤ MAX_RAM_MB →
       MIN_PORT ≤ port → port ≤ MAX_PORT →
       paper_server_init net version build ram port = .error .attributeError)
  ∧ (∀ (net : Except PyError ProjectDoc) (version : String) (build : Option Int)
       (ram port : Int),
       pyStrip version ≠ "" → MIN_RAM_MB ≤ ram → ram ≤ MAX_RAM_MB →
       MIN_PORT ≤ port → port ≤ MAX_PORT →
       leaf_server_init net version build ram port = .error .attributeError) := by
  refine ⟨?_, ?_, ?_, ?_, ?_⟩
  · intro net version ram port hv h1 h2 h3 h4 hmem
    have hmem2 : pyStrip version ∉ DEFAULT_MINECRAFT_VERSIONS := fun hin =>
      Bool.false_ne_true (hmem ▸ List.elem_eq_true_of_mem hin)
    rw [vanilla_server_init, base_server_init_ok version ram port hv h1 h2 h3 h4]
    exact if_neg (by simp [vanilla_supported_versions, hmem2])
  · intro version ram port hv h1 h2 h3 h4 hmem
    have hmem2 : pyStrip version ∉ SPIGOT_SUPPORTED_VERSIONS := fun hin =>
      Bool.false_ne_true (hmem ▸ List.elem_eq_true_of_mem hin)
    rw [spigot_server_init, base_server_init_ok version ram port hv h1 h2 h3 h4]
    exact if_neg (by simp [hmem2])
  · intro version fv ram port hv h1 h2 h3 h4 hmem
    have hmem2 : pyStrip version ∉ FORGE_SUPPORTED_VERSIONS := fun hin =>
      Bool.false_ne_true (hmem ▸ List.elem_eq_true_of_mem hin)
    rw [forge_server_init, base_server_init_ok version ram port hv h1 h2 h3 h4]
    exact if_neg (by simp [hmem2])
  · intro net version build ram port hv h1 h2 h3 h4
    rw [paper_server_init, base_server_init_ok version ram port hv h1 h2 h3 h4]
    rfl
  · intro net version build ram port hv h1 h2 h3 h4
    rw [leaf_server_init, base_server_init_ok version ram port hv h1 h2 h3 h4]
    rfl

/-- Witness for C4's theorem: `9.9.9` is gated with
`UnsupportedVersionError` for vanilla, Spigot and Forge; constructing a
Paper server with the perfectly supported-looking `1.21.4` raises
`AttributeError` instead. -/
theorem version_gate_behavior_witness :
    vanilla_server_init (.error .apiError) "9.9.9" 2048 25565 =
      .error .unsupportedVersionError
    ∧ spigot_server_init "9.9.9" 2048 25565 = .error .unsupportedVersionError
    ∧ forge_server_init "9.9.9" none 2048 25565 = .error .unsupportedVersionError
    ∧ paper_server_init (.ok { versions := some ["1.21.4"] }) "1.21.4" none 2048 25565 =
        .error .attributeError
    ∧ leaf_server_init (.ok { versions := some ["1.21.4"] }) "1.21.4" none 2048 25565 =
        .error .attributeError := by
  refine ⟨?_, ?_, ?_, ?_, ?_⟩
  · exact version_gate_behavior.1 (.error .apiError) "9.9.9" 2048 25565
      (by decide) (by decide) (by decide) (by decide) (by decide) (by decide)
  · exact version_gate_behavior.2.1 "9.9.9" 2048 25565
      (by decide) (by decide) (by decide) (by decide) (by decide) (by decide)
  · exact version_gate_behavior.2.2.1 "9.9.9" none 2048 25565
      (by decide) (by decide) (by decide) (by decide) (by decide) (by decide)
  · exact version_gate_behavior.2.2.2.1 (.ok { versions := some ["1.21.4"] })
      "1.21.4" none 2048 25565 (by decide) (by decide) (by decide) (by decide) (by decide)
  · exact version_gate_behavior.2.2.2.2 (.ok { versions := some ["1.21.4"] })
      "1.21.4" none 2048 25565 (by decide) (by decide) (by decide) (by decide) (by decide)

/-- C10 (code evaluation): `get_paper_versions` returns `[]` for every
request outcome (its body reads the never-assigned `self._client` and the
handler swallows the `AttributeError`), and `PaperServer` applies no static
fallback, so with an initialized API client the supported list would be
empty and would gate out every version — while Leaf falls back to the
filtered static list and vanilla to the full static list.  The actual
construction path, however, runs the gate with `_api = None` and dies with
`AttributeError` rather than `UnsupportedVersionError`. -/
theorem paper_empty_supported_no_fallback :
    (∀ net : Except PyError ProjectDoc, mc_get_paper_versions mcInit net = [])
  ∧ (∀ (net : Except PyError ProjectDoc) (version : String),
       paper_supported_versions (some mcInit) net = .ok []
     ∧ (mc_get_paper_versions mcInit net).contains version = false)
  ∧ (∀ net : Except PyError ProjectDoc,
       leaf_supported_versions (some mcInit) net =
         .ok (DEFAULT_MINECRAFT_VERSIONS.filter leafFallbackKeep))
  ∧ (∀ net : Except PyError VersionManifest,
       vanilla_supported_versions (some mcInit) net = DEFAULT_MINECRAFT_VERSIONS)
  ∧ (∀ (net : Except PyError ProjectDoc) (version : String) (build : Option Int)
       (ram port : Int),
       pyStrip version ≠ "" → MIN_RAM_MB ≤ ram → ram ≤ MAX_RAM_MB →
       MIN_PORT ≤ port → port ≤ MAX_PORT →
       paper_server_init net version build ram port = .error .attributeError) := by
  refine ⟨fun _ => rfl, fun _ _ => ⟨rfl, rfl⟩, fun _ => rfl, fun _ => rfl, ?_⟩
  intro net version build ram port hv h1 h2 h3 h4
  rw [paper_server_init, base_server_init_ok version ram port hv h1 h2 h3 h4]
  rfl

/-- Witness for C10's theorem: with the Paper project request failing, the
supported list is empty and `1.21.1` is not in it; constructing the server
nevertheless raises `AttributeError`, not `UnsupportedVersionError`. -/
theorem paper_empty_supported_no_fallback_witness :
    paper_supported_versions (some mcInit) (.error .apiError) = .ok []
    ∧ (mc_get_paper_versions mcInit (.error .apiError)).contains "1.21.1" = false
    ∧ paper_server_init (.error .apiError) "1.21.1" none 2048 25565 =
        .error .attributeError := by
  refine ⟨(paper_empty_supported_no_fallback.2.1 (.error .apiError) "1.21.1").1,
    (paper_empty_supported_no_fallback.2.1 (.error .apiError) "1.21.1").2, ?_⟩
  exact paper_empty_supported_no_fallback.2.2.2.2 (.error .apiError) "1.21.1" none
    2048 25565 (by decide) (by decide) (by decide) (by decide) (by decide)

theorem isNameChar_imp_isKeptChar (c : Char) (h : isNameChar c = true) :
    isKeptChar c = true := by
  simp [isNameChar] at h
  simp [isKeptChar]
  tauto

theorem validate_server_name_elim (n : String) (h : validate_server_name n = true) :
    n.data ≠ [] ∧ ∀ c ∈ n.data, isNameChar c = true := by
  unfold validate_server_name at h
  split_ifs at h with h1 h2 h3 h4
  simp at h1
  obtain ⟨hne, hall⟩ := h1
  refine ⟨?_, hall⟩
  intro hnil
  rw [hnil] at hne
  simp at hne

theorem sanitize_of_valid (n : String) (h : validate_server_name n = true) :
    sanitize_path_component n = .ok n := by
  obtain ⟨hne, hall⟩ := validate_server_name_elim n h
  have hfilter : n.data.filter isKeptChar = n.data :=
    List.filter_eq_self.mpr fun c hc =>
      isNameChar_imp_isKeptChar c (hall c hc)
  have hmk : String.mk n.data = n := rfl
  simp [sanitize_path_component, h, hfilter, hne, hmk]

theorem foldl_resolveStep_clean :
    ∀ p : FsPath, p.all cleanComp = true →
      ∀ acc : FsPath, p.foldl resolveStep acc = acc ++ p := by
  intro p
  induction p with
  | nil => intro _ acc; simp
  | cons c rest ih =>
    intro hp acc
    rw [List.all_cons, Bool.and_eq_true] at hp
    obtain ⟨hc, hrest⟩ := hp
    have h1 : c ≠ "" := by intro he; rw [he] at hc; simp [cleanComp] at hc
    have h2 : c ≠ "." := by intro he; rw [he] at hc; simp [cleanComp] at hc
    have h3 : c ≠ ".." := by intro he; rw [he] at hc; simp [cleanComp] at hc
    have hstep : resolveStep acc c = acc ++ [c] := by
      simp [resolveStep, h1, h2, h3]
    rw [List.foldl_cons, hstep, ih hrest (acc ++ [c])]
    simp

theorem resolveComponents_clean (p : FsPath) (hp : p.all cleanComp = true) :
    resolveComponents p = p := by
  unfold resolveComponents
  rw [foldl_resolveStep_clean p hp []]
  simp

theorem pathChars_append (xs ys : FsPath) :
    pathChars (xs ++ ys) = pathChars xs ++ pathChars ys := by
  induction xs with
  | nil => simp [pathChars]
  | cons c rest ih => simp [pathChars, ih]

theorem server_dir_name_clean (t v : String) (i : Nat)
    (ht : t.data ≠ []) (hv : v.data ≠ []) :
    cleanComp (server_dir_name t v i) = true := by
  have h1 : 1 ≤ t.data.length := List.length_pos.mpr ht
  have h2 : 1 ≤ v.data.length := List.length_pos.mpr hv
  have hdash : ("-" : String).data.length = 1 := rfl
  have hlt : t.length = t.data.length := rfl
  have hlv : v.length = v.data.length := rfl
  have hlen : 3 ≤ (server_dir_name t v i).data.length := by
    unfold server_dir_name
    split_ifs
    · simp [String.data_append]
      omega
    · simp [String.data_append]
      omega
  have hne1 : server_dir_name t v i ≠ "" := by
    intro h
    rw [h] at hlen
    simp at hlen
  have hne2 : server_dir_name t v i ≠ "." := by
    intro h
    rw [h] at hlen
    simp at hlen
  have hne3 : server_dir_name t v i ≠ ".." := by
    intro h
    rw [h] at hlen
    simp at hlen
  simp [cleanComp, hne1, hne2, hne3]

theorem get_server_directory_ok (base : FsPath) (t v : String) (i : Nat)
    (hbase : base.all cleanComp = true)
    (ht : validate_server_name t = true) (hv : validate_server_name v = true)
    (hi : i ≤ 999) :
    get_server_directory base t v i =
      .ok { path := base ++ [server_dir_name t v i], mode := 0o755 } := by
  have hns : ¬(999 < i) := not_lt.mpr hi
  have hst := sanitize_of_valid t ht
  have hsv := sanitize_of_valid v hv
  have hclean : cleanComp (server_dir_name t v i) = true :=
    server_dir_name_clean t v i (validate_server_name_elim t ht).1
      (validate_server_name_elim v hv).1
  have hall : (base ++ [server_dir_name t v i]).all cleanComp = true := by
    rw [List.all_append]
    simp [hbase, hclean]
  have hres : resolveComponents (base ++ [server_dir_name t v i]) =
      base ++ [server_dir_name t v i] := resolveComponents_clean _ hall
  have hresb : resolveComponents base = base := resolveComponents_clean _ hbase
  have hpre : (pathChars (resolveComponents base)).isPrefixOf
      (pathChars (resolveComponents (base ++ [server_dir_name t v i]))) = true := by
    rw [hres, hresb, pathChars_append]
    exact List.isPrefixOf_iff_prefix.mpr (List.prefix_append _ _)
  have hvr : validate_and_resolve_path (base ++ [server_dir_name t v i]) base =
      .ok (base ++ [server_dir_name t v i]) := by
    simp [validate_and_resolve_path, hres]
    rw [hresb, pathChars_append]
    exact List.prefix_append _ _
  simp [get_server_directory, ht, hv, hns, hst, hsv]
  show (fun a => ({ path := a, mode := 493 } : CreatedDir)) <$>
      validate_and_resolve_path (base ++ [server_dir_name t v i]) base =
    Except.ok { path := base ++ [server_dir_name t v i], mode := 493 }
  rw [hvr]
  rfl

theorem findAvailableAux_hit (fs : Fs) (base : FsPath) (t v : String)
    (hbase : base.all cleanComp = true)
    (ht : validate_server_name t = true) (hv : validate_server_name v = true) :
    ∀ (r i j : Nat), i + r = 1000 → i ≤ j → j ≤ 999 →
      (∀ k : Nat, i ≤ k → k < j → fs (base ++ [server_dir_name t v k]) = .nonEmpty) →
      fs (base ++ [server_dir_name t v j]) ≠ .nonEmpty →
      findAvailableAux fs base t v i r =
        .ok { path := base ++ [server_dir_name t v j], mode := 0o755 } := by
  intro r
  induction r with
  | zero => intro i j hsum hij hj _ _; omega
  | succ r ih =>
    intro i j hsum hij hj hpre hjne
    have hi : i ≤ 999 := by omega
    have hgd := get_server_directory_ok base t v i hbase ht hv hi
    rcases eq_or_lt_of_le hij with rfl | hlt
    · simp [findAvailableAux, hgd, hjne]
    · have hfs : fs (base ++ [server_dir_name t v i]) = .nonEmpty :=
        hpre i le_rfl hlt
      have hr := ih (i + 1) j (by omega) (by omega) hj
        (fun k hk1 hk2 => hpre k (by omega) hk2) hjne
      simp [findAvailableAux, hgd, hfs, hr]

theorem findAvailableAux_exhaust (fs : Fs) (base : FsPath) (t v : String)
    (hbase : base.all cleanComp = true)
    (ht : validate_server_name t = true) (hv : validate_server_name v = true) :
    ∀ (r i : Nat), i + r = 1000 →
      (∀ k : Nat, i ≤ k → k ≤ 999 → fs (base ++ [server_dir_name t v k]) = .nonEmpty) →
      findAvailableAux fs base t v i r = .error .pathValidationError := by
  intro r
  induction r with
  | zero => intro i _ _; rfl
  | succ r ih =>
    intro i hsum hall
    have hi : i ≤ 999 := by omega
    have hgd := get_server_directory_ok base t v i hbase ht hv hi
    have hfs : fs (base ++ [server_dir_name t v i]) = .nonEmpty := hall i le_rfl hi
    have hr := ih (i + 1) (by omega) (fun k hk1 hk2 => hall k (by omega) hk2)
    simp [findAvailableAux, hgd, hfs, hr]

/-- C1 (amended): `validate_and_resolve_path` accepts exactly when the
resolved candidate's `str()` rendering extends the resolved root's `str()`
rendering as a character prefix, and raises `PathValidationError` otherwise
— a *string*-prefix check, so a sibling of the root whose name extends the
root's last component (the counterexample) passes despite resolving
outside; and for every pair of valid sanitized components the allocated
directory is a strict descendant of the sandbox root. -/
theorem path_validation_amended :
    (∀ path root : FsPath,
       (validate_and_resolve_path path root = .ok (resolveComponents path) ↔
         (pathChars (resolveComponents root)).isPrefixOf
           (pathChars (resolveComponents path)) = true)
     ∧ ((pathChars (resolveComponents root)).isPrefixOf
           (pathChars (resolveComponents path)) = false →
         validate_and_resolve_path path root = .error .pathValidationError))
  ∧ (∀ (base : FsPath) (t v : String) (i : Nat),
       base.all cleanComp = true → validate_server_name t = true →
       validate_server_name v = true → i ≤ 999 →
       get_server_directory base t v i =
         .ok { path := base ++ [server_dir_name t v i], mode := 0o755 }
       ∧ isWithinRoot (base ++ [server_dir_name t v i]) base
       ∧ base ++ [server_dir_name t v i] ≠ base) := by
  constructor
  · intro path root
    constructor
    · constructor
      · intro h
        by_contra hfalse
        rw [Bool.not_eq_true] at hfalse
        rw [(show validate_and_resolve_path path root = .error .pathValidationError by
          simp [validate_and_resolve_path, hfalse])] at h
        cases h
      · intro h
        simp [validate_and_resolve_path, h]
    · intro h
      simp [validate_and_resolve_path, h]
  · intro base t v i hbase ht hv hi
    refine ⟨get_server_directory_ok base t v i hbase ht hv hi,
      List.prefix_append base [server_dir_name t v i], ?_⟩
    intro h
    have := congrArg List.length h
    simp at this

/-- Counterexample for C1 as stated: the candidate `/srv/mc-evil` resolves
to itself, which is *outside* the root `/srv/mc` (not a path-component
descendant), yet `validate_and_resolve_path` accepts it, because
`"/srv/mc-evil"` starts with the string `"/srv/mc"`. -/
theorem path_validation_counterexample :
    resolveComponents ["srv", "mc-evil"] = ["srv", "mc-evil"]
    ∧ ¬ isWithinRoot ["srv", "mc-evil"] ["srv", "mc"]
    ∧ validate_and_resolve_path ["srv", "mc-evil"] ["srv", "mc"] =
        .ok ["srv", "mc-evil"] := by
  exact ⟨by decide, by decide, by decide⟩

/-- Witness for C1's amended theorem: a `..`-traversal out of the sandbox is
rejected, and the allocation of `paper`/`1.21` instance `0` lands strictly
inside the root. -/
theorem path_validation_amended_witness :
    validate_and_resolve_path ["home", "user", "minecraft_servers", "..", "..", "etc"]
        ["home", "user", "minecraft_servers"] = .error .pathValidationError
    ∧ get_server_directory ["home", "user", "minecraft_servers"] "paper" "1.21" 0 =
        .ok { path := ["home", "user", "minecraft_servers", "paper-1.21"], mode := 0o755 }
    ∧ isWithinRoot ["home", "user", "minecraft_servers", "paper-1.21"]
        ["home", "user", "minecraft_servers"] := by
  refine ⟨(path_validation_amended.1
      ["home", "user", "minecraft_servers", "..", "..", "etc"]
      ["home", "user", "minecraft_servers"]).2 (by decide), ?_, ?_⟩
  · exact (path_validation_amended.2 ["home", "user", "minecraft_servers"]
      "paper" "1.21" 0 (by decide) (by decide) (by decide) (by decide)).1
  · exact (path_validation_amended.2 ["home", "user", "minecraft_servers"]
      "paper" "1.21" 0 (by decide) (by decide) (by decide) (by decide)).2.1

/-- C9: for valid components, `find_available_server_directory` tries
instances `0..999` in order — instance `0` named `{kind}-{version}`,
instance `i > 0` named `{kind}-{version}-{i}` — and returns the first whose
directory is not non-empty (it does not exist, and is then created empty, or
exists empty), created with mode `0o755`; when all 1000 instances are
non-empty it raises `PathValidationError`. -/
theorem allocate_first_available (fs : Fs) (base : FsPath) (t v : String)
    (hbase : base.all cleanComp = true) (ht : validate_server_name t = true)
    (hv : validate_server_name v = true) :
    server_dir_name t v 0 = t ++ "-" ++ v
  ∧ (∀ i : Nat, i ≠ 0 → server_dir_name t v i = t ++ "-" ++ v ++ "-" ++ toString i)
  ∧ (∀ j : Nat, j ≤ 999 →
      (∀ k : Nat, k < j → fs (base ++ [server_dir_name t v k]) = .nonEmpty) →
      fs (base ++ [server_dir_name t v j]) ≠ .nonEmpty →
      find_available_server_directory fs base t v =
        .ok { path := base ++ [server_dir_name t v j], mode := 0o755 })
  ∧ ((∀ k : Nat, k ≤ 999 → fs (base ++ [server_dir_name t v k]) = .nonEmpty) →
      find_available_server_directory fs base t v = .error .pathValidationError) := by
  refine ⟨rfl, ?_, ?_, ?_⟩
  · intro i hi
    simp [server_dir_name, hi]
  · intro j hj hpre hjne
    exact findAvailableAux_hit fs base t v hbase ht hv 1000 0 j rfl (Nat.zero_le j) hj
      (fun k _ hk2 => hpre k hk2) hjne
  · intro hall
    exact findAvailableAux_exhaust fs base t v hbase ht hv 1000 0 rfl
      (fun k _ hk2 => hall k hk2)

/-- Witness for C9: with `paper-1.21` and `paper-1.21-1` already populated,
allocation returns `paper-1.21-2`; with every instance populated it fails. -/
theorem allocate_first_available_witness :
    find_available_server_directory
      (fun p => if p = ["home", "minecraft_servers", "paper-1.21"]
                   || p = ["home", "minecraft_servers", "paper-1.21-1"]
                then .nonEmpty else .absent)
      ["home", "minecraft_servers"] "paper" "1.21" =
      .ok { path := ["home", "minecraft_servers", "paper-1.21-2"], mode := 0o755 }
    ∧ find_available_server_directory (fun _ => .nonEmpty)
        ["home", "minecraft_servers"] "paper" "1.21" =
      .error .pathValidationError := by
  constructor
  · have h := (allocate_first_available
      (fun p => if p = ["home", "minecraft_servers", "paper-1.21"]
                   || p = ["home", "minecraft_servers", "paper-1.21-1"]
                then .nonEmpty else .absent)
      ["home", "minecraft_servers"] "paper" "1.21"
      (by decide) (by decide) (by decide)).2.2.1 2 (by decide) ?_ (by decide)
    · simpa using h
    · intro k hk
      interval_cases k <;> decide
  · exact (allocate_first_available (fun _ => .nonEmpty)
      ["home", "minecraft_servers"] "paper" "1.21"
      (by decide) (by decide) (by decide)).2.2.2 (fun k _ => rfl)
